import Mathlib

/-!
# Formal model of the prism backend's billing, scheduling and OAuth components

A shallow embedding, in Lean 4, of the parts of `src/backend/app` that the
specification makes claims about:

* `stripe_webhooks.py` / `main.py:stripe_webhook` — the webhook-driven
  subscription state machine together with its idempotency ledger;
* `models.py` — the `User.is_pro` derived property and record shapes;
* `celery_app.py:post_scheduled_tweet` together with
  `redis_client.py` — the scheduled-post dispatcher and the fixed-window
  rate limiter;
* `auth.py:generate_pkce_pair` — the PKCE generator (with a concrete
  executable SHA-256 and base64url implementation);
* `encryption.py` — the token codec (the Fernet cipher itself is vendor
  library code and is modelled symbolically, see `fernet_encrypt`);
* `main.py:oauth_callback` — the OAuth callback's state check.

Python strings are modelled as `String` (or `List Char` where character-level
reasoning is needed), timestamps as `Int`, byte strings as `List Nat` with
values below 256, and SQLAlchemy rows as structures.  A SQLAlchemy session is
modelled by explicit state passing: a handler that can raise mid-transition
returns `Except (String × DBState) DBState`, the error carrying the pending
(uncommitted) session state at the moment of the raise, so that the caller's
own `commit`/`rollback` decision can be modelled faithfully.
-/

set_option autoImplicit false

namespace Prism

/-! ## Generic list helpers

`updateFirst p f l` mutates the first element of `l` satisfying `p`, the way
a SQLAlchemy `query(...).first()` followed by attribute assignment mutates
exactly one row (the uniqueness indexes on the queried columns make the first
match the only match). -/

def updateFirst {α : Type} (p : α → Bool) (f : α → α) : List α → List α
  | [] => []
  | x :: xs => if p x then f x :: xs else x :: updateFirst p f xs

theorem updateFirst_nil {α : Type} (p : α → Bool) (f : α → α) :
    updateFirst p f [] = [] := rfl

theorem updateFirst_cons_pos {α : Type} (p : α → Bool) (f : α → α)
    (x : α) (xs : List α) (h : p x = true) :
    updateFirst p f (x :: xs) = f x :: xs := by
  simp [updateFirst, h]

theorem updateFirst_cons_neg {α : Type} (p : α → Bool) (f : α → α)
    (x : α) (xs : List α) (h : p x = false) :
    updateFirst p f (x :: xs) = x :: updateFirst p f xs := by
  simp [updateFirst, h]

theorem updateFirst_append_of_none {α : Type} (p : α → Bool) (f : α → α)
    (l₁ l₂ : List α) (h : ∀ x ∈ l₁, p x = false) :
    updateFirst p f (l₁ ++ l₂) = l₁ ++ updateFirst p f l₂ := by
  induction l₁ with
  | nil => rfl
  | cons x xs ih =>
      have hx : p x = false := h x (List.mem_cons_self x xs)
      simp [updateFirst, hx]
      exact ih fun y hy => h y (List.mem_cons_of_mem x hy)

/-! ## Data model (`models.py`)

One structure per SQLAlchemy model, with the columns the claims mention.
`Option` marks nullable columns. -/

structure Subscription where
  id : Nat
  user_id : Nat
  stripe_customer_id : String
  stripe_subscription_id : Option String
  stripe_price_id : String
  status : String
  plan_type : String
  current_period_start : Option Int
  current_period_end : Option Int
  cancel_at_period_end : Bool
  canceled_at : Option Int
  deriving DecidableEq, Repr

structure PaymentHistory where
  subscription_id : Nat
  stripe_payment_intent_id : Option String
  stripe_invoice_id : Option String
  amount : Int
  currency : String
  status : String
  description : String
  failure_reason : Option String
  paid_at : Option Int
  deriving DecidableEq, Repr

structure StripeWebhookEvent where
  stripe_event_id : String
  event_type : String
  processed : Bool
  processing_error : Option String
  processed_at : Option Int
  deriving DecidableEq, Repr

/-- The relational state the webhook pipeline reads and writes. -/
structure DBState where
  subscriptions : List Subscription
  payments : List PaymentHistory
  webhook_events : List StripeWebhookEvent
  deriving DecidableEq, Repr

/-- `User.is_pro` (`models.py` lines 50–55): derived on read from the user's
optional subscription row, never stored. -/
def is_pro (subscription : Option Subscription) : Bool :=
  match subscription with
  | none => false
  | some s => s.status == "active" && s.plan_type == "pro"

/-! ## Webhook event payloads (`stripe_webhooks.py`)

Each handler reads `event_data['object']`; the dictionary fields it accesses
become structure fields, with `.get(...)` accesses as `Option`. -/

/-- `checkout.session.completed` payload: `session['metadata'].get('subscription_id')`
(already parsed by `int(...)`) and `session['subscription']`. -/
structure CheckoutSession where
  metadata_subscription_id : Option Nat
  subscription : String
  deriving DecidableEq, Repr

/-- `customer.subscription.updated` payload fields read by the handler. -/
structure StripeSubObj where
  id : String
  status : String
  current_period_start : Int
  current_period_end : Int
  cancel_at_period_end : Bool
  deriving DecidableEq, Repr

/-- `invoice.paid` / `invoice.payment_failed` payload fields.
`line_descriptions` models `invoice.get('lines')` as the list of
`['data'][i]['description']` values — `invoice['lines']['data'][0]` raises
`IndexError` when the list is present but empty.
`status_transitions_paid_at` models `invoice.get('status_transitions')`
(carrying its `paid_at` value); `last_finalization_error_message` models
`invoice.get('last_finalization_error', {}).get('message', ...)`. -/
structure InvoiceObj where
  id : String
  subscription : Option String
  payment_intent : String
  amount_paid : Int
  amount_due : Int
  currency : String
  line_descriptions : Option (List String)
  status_transitions_paid_at : Option Int
  last_finalization_error_message : Option String
  deriving DecidableEq, Repr

inductive EventData where
  | checkout (s : CheckoutSession)
  | subUpdated (s : StripeSubObj)
  | subDeleted (id : String)
  | invoicePaid (inv : InvoiceObj)
  | invoiceFailed (inv : InvoiceObj)
  | other
  deriving DecidableEq, Repr

/-- A verified webhook event envelope `{id, type, data}`; the `type` string is
determined by the payload variant. -/
structure StripeEvent where
  id : String
  data : EventData
  deriving DecidableEq, Repr

def eventTypeName : EventData → String
  | .checkout _ => "checkout.session.completed"
  | .subUpdated _ => "customer.subscription.updated"
  | .subDeleted _ => "customer.subscription.deleted"
  | .invoicePaid _ => "invoice.paid"
  | .invoiceFailed _ => "invoice.payment_failed"
  | .other => "other"

/-! ## Webhook handlers (`stripe_webhooks.py`)

Each handler returns `.ok` with the state it committed, or `.error` with the
raised message together with the pending session state at the raise. -/

/-- `WebhookHandler.handle_checkout_completed` (lines 17–39): if the session
metadata carries a subscription id and a matching local row exists, attach the
provider's subscription id and set status `active`.  The source applies no
guard on the row's current status. -/
def handle_checkout_completed (d : CheckoutSession) (st : DBState) :
    Except (String × DBState) DBState :=
  match d.metadata_subscription_id with
  | none => .ok st
  | some sid =>
      .ok { st with subscriptions :=
              (updateFirst (fun s => s.id == sid)
                (fun s => { s with stripe_subscription_id := some d.subscription,
                                   status := "active" })
                st.subscriptions) }

/-- The per-row mutation of `handle_subscription_updated` (lines 57–72):
status and period bounds overwritten verbatim; `plan_type` set to `pro` when
the new status is `active`, set to `free` when it is `canceled` or `unpaid`,
and left untouched otherwise. -/
def applySubUpdate (d : StripeSubObj) (s : Subscription) : Subscription :=
  let s1 := { s with status := d.status,
                     current_period_start := some d.current_period_start,
                     current_period_end := some d.current_period_end,
                     cancel_at_period_end := d.cancel_at_period_end }
  if d.status == "active" then { s1 with plan_type := "pro" }
  else if d.status == "canceled" || d.status == "unpaid" then
    { s1 with plan_type := "free" }
  else s1

/-- `WebhookHandler.handle_subscription_updated` (lines 41–74). -/
def handle_subscription_updated (d : StripeSubObj) (st : DBState) :
    Except (String × DBState) DBState :=
  .ok { st with subscriptions :=
          (updateFirst (fun s => s.stripe_subscription_id == some d.id)
            (applySubUpdate d) st.subscriptions) }

/-- `WebhookHandler.handle_subscription_deleted` (lines 76–97). -/
def handle_subscription_deleted (subId : String) (now : Int) (st : DBState) :
    Except (String × DBState) DBState :=
  .ok { st with subscriptions :=
          (updateFirst (fun s => s.stripe_subscription_id == some subId)
            (fun s => { s with status := "canceled", plan_type := "free",
                               canceled_at := some now })
            st.subscriptions) }

/-- The `description` expression shared by the invoice handlers:
`f"... {invoice['lines']['data'][0]['description']}" if invoice.get('lines')
else "Subscription payment"`; raises `IndexError` on an empty line list. -/
def invoiceDescription (stem : String) (lineDescs : Option (List String)) :
    Except String String :=
  match lineDescs with
  | none => .ok "Subscription payment"
  | some [] => .error "IndexError: list index out of range"
  | some (d0 :: _) => .ok (stem ++ d0)

/-- `WebhookHandler.handle_invoice_paid` (lines 99–131): append a `succeeded`
PaymentHistory row for the matching subscription; no status change. -/
def handle_invoice_paid (inv : InvoiceObj) (now : Int) (st : DBState) :
    Except (String × DBState) DBState :=
  match inv.subscription with
  | none => .ok st
  | some subId =>
      match st.subscriptions.find? (fun s => s.stripe_subscription_id == some subId) with
      | none => .ok st
      | some sub =>
          match invoiceDescription "Payment for " inv.line_descriptions with
          | .error msg => .error (msg, st)
          | .ok descr =>
              .ok { st with payments := (st.payments ++
                      [{ subscription_id := sub.id,
                         stripe_payment_intent_id := some inv.payment_intent,
                         stripe_invoice_id := some inv.id,
                         amount := inv.amount_paid,
                         currency := inv.currency,
                         status := "succeeded",
                         description := descr,
                         failure_reason := none,
                         paid_at := some (inv.status_transitions_paid_at.getD now) }]) }

/-- `WebhookHandler.handle_invoice_payment_failed` (lines 133–168): force the
matching subscription to `past_due`, then append a `failed` PaymentHistory
row.  Building the row's description can raise after the status mutation is
already pending — the error carries that partial state. -/
def handle_invoice_payment_failed (inv : InvoiceObj) (st : DBState) :
    Except (String × DBState) DBState :=
  match inv.subscription with
  | none => .ok st
  | some subId =>
      match st.subscriptions.find? (fun s => s.stripe_subscription_id == some subId) with
      | none => .ok st
      | some sub =>
          let st1 := { st with subscriptions :=
                        (updateFirst (fun s => s.stripe_subscription_id == some subId)
                          (fun s => { s with status := "past_due" })
                          st.subscriptions) }
          match invoiceDescription "Failed payment for " inv.line_descriptions with
          | .error msg => .error (msg, st1)
          | .ok descr =>
              .ok { st1 with payments := (st1.payments ++
                      [{ subscription_id := sub.id,
                         stripe_payment_intent_id := none,
                         stripe_invoice_id := some inv.id,
                         amount := inv.amount_due,
                         currency := inv.currency,
                         status := "failed",
                         description := descr,
                         failure_reason :=
                           some (inv.last_finalization_error_message.getD "Payment failed"),
                         paid_at := none }]) }

/-- The `event_handlers` dispatch table of `main.py:stripe_webhook`
(lines 893–903); an unknown type has no handler and is a no-op. -/
def runHandler (d : EventData) (now : Int) (st : DBState) :
    Except (String × DBState) DBState :=
  match d with
  | .checkout s => handle_checkout_completed s st
  | .subUpdated s => handle_subscription_updated s st
  | .subDeleted i => handle_subscription_deleted i now st
  | .invoicePaid inv => handle_invoice_paid inv now st
  | .invoiceFailed inv => handle_invoice_payment_failed inv st
  | .other => .ok st

inductive WebhookOutcome where
  | alreadyProcessed
  | success
  | failure (msg : String)
  deriving DecidableEq, Repr

/-- The try/except body of `stripe_webhook` (lines 891–918): run the handler;
on success mark the ledger entry processed and commit; on a raise stamp
`processing_error` on the ledger entry and commit — the source calls
`db.commit()` in the except block with the handler's partial writes still
pending in the session, so those writes are committed alongside the stamp. -/
def processEvent (e : StripeEvent) (now : Int) (st : DBState) :
    DBState × WebhookOutcome :=
  match runHandler e.data now st with
  | .ok st2 =>
      ({ st2 with webhook_events :=
            (updateFirst (fun r => r.stripe_event_id == e.id)
              (fun r => { r with processed := true, processed_at := some now })
              st2.webhook_events) },
       .success)
  | .error (msg, stP) =>
      ({ stP with webhook_events :=
            (updateFirst (fun r => r.stripe_event_id == e.id)
              (fun r => { r with processing_error := some msg })
              stP.webhook_events) },
       .failure msg)

/-- `main.py:stripe_webhook` (lines 853–918), after signature verification:
look up the idempotency ledger by the event's external id; short-circuit when
already processed; otherwise create (and commit) a ledger entry if absent and
run the dispatch. -/
def stripe_webhook (e : StripeEvent) (now : Int) (st : DBState) :
    DBState × WebhookOutcome :=
  match st.webhook_events.find? (fun r => r.stripe_event_id == e.id) with
  | some r =>
      if r.processed then (st, .alreadyProcessed)
      else processEvent e now st
  | none =>
      processEvent e now
        { st with webhook_events := (st.webhook_events ++
            [{ stripe_event_id := e.id, event_type := eventTypeName e.data,
               processed := false, processing_error := none, processed_at := none }]) }

/-! ## Token codec (`encryption.py`)

`TokenEncryption` wraps `cryptography.fernet.Fernet`, which is vendor library
code, not part of this repository. -/

/-- Modelled from the spec: the Fernet cipher of the `cryptography` library is
not among this repository's sources; §4.3 describes it as "a symmetric
authenticated cipher keyed by a fixed secret" whose decryption "must never
silently return garbage".  We model an authenticated ciphertext token as the
key it was produced under, the fresh randomness (IV/timestamp) used, and the
plaintext; authentication succeeds exactly when the decryption key matches the
production key. -/
structure FernetToken where
  key : Nat
  nonce : Nat
  plain : String
  deriving DecidableEq, Repr

/-- Modelled from the spec: `Fernet(key).encrypt` — authenticated encryption
of `plain` under `key` with fresh randomness `nonce`. -/
def fernet_encrypt (key nonce : Nat) (plain : String) : FernetToken :=
  { key := key, nonce := nonce, plain := plain }

/-- Modelled from the spec: `Fernet(key).decrypt` — returns the plaintext when
the authentication check against `key` succeeds, raises `InvalidToken`
(surfaced as a decryption error) otherwise. -/
def fernet_decrypt (key : Nat) (tok : FernetToken) : Except String String :=
  if tok.key = key then .ok tok.plain else .error "DecryptionError: InvalidToken"

/-- `TokenEncryption` (`encryption.py` lines 20–60): a cipher keyed by the
configured secret. -/
structure TokenEncryption where
  key : Nat
  deriving DecidableEq, Repr

/-- `TokenEncryption.encrypt_token` (lines 35–46). -/
def TokenEncryption.encrypt_token (c : TokenEncryption) (nonce : Nat)
    (token : String) : FernetToken :=
  fernet_encrypt c.key nonce token

/-- `TokenEncryption.decrypt_token` (lines 49–60). -/
def TokenEncryption.decrypt_token (c : TokenEncryption) (encrypted_token : FernetToken) :
    Except String String :=
  fernet_decrypt c.key encrypted_token

/-! ## Rate limiter (`redis_client.py`)

The Redis counter for a key is `Option Nat` (absent or current count) and its
remaining TTL is the integer Redis `TTL` reply (`-2` absent, `-1` no expiry,
positive = seconds left). -/

/-- `RateLimiter.check_rate_limit` (lines 26–51). -/
def check_rate_limit (counter : Option Nat) (limit : Nat) : Bool × Nat :=
  match counter with
  | none => (true, 0)
  | some current_count =>
      if current_count ≥ limit then (false, current_count)
      else (true, current_count)

/-- `RateLimiter.get_ttl` (lines 91–102): seconds until reset, or `none` when
the Redis TTL reply is not positive. -/
def get_ttl (ttl : Int) : Option Int :=
  if ttl > 0 then some ttl else none

def X_API_POST_LIMIT : Nat := 100
def X_API_WINDOW : Nat := 900

/-- `check_x_post_rate_limit` (lines 114–129). -/
def check_x_post_rate_limit (counter : Option Nat) (ttl : Int) :
    Bool × Int × Option Int :=
  let ac := check_rate_limit counter X_API_POST_LIMIT
  let remaining : Int := (X_API_POST_LIMIT : Int) - (ac.2 : Int)
  let reset_in := if ac.1 then none else get_ttl ttl
  (ac.1, remaining, reset_in)

/-! ## Scheduled-post dispatcher (`celery_app.py:post_scheduled_tweet`) -/

structure ScheduledPost where
  id : Nat
  user_id : Nat
  content : String
  scheduled_for : Int
  posted_at : Option Int
  status : String
  x_post_id : Option String
  error_message : Option String
  deriving DecidableEq, Repr

/-- The slice of the `users` row the dispatcher reads. -/
structure XUser where
  id : Nat
  x_access_token : Option FernetToken
  deriving DecidableEq, Repr

inductive DispatchOutcome where
  | alreadyPosted
  | posted (tweetId : String)
  | raised (msg : String)
  deriving DecidableEq, Repr

/-- The dispatcher's observable effects: the committed `ScheduledPost` row,
whether the outbound posting API was called, and whether the rate counter was
incremented. -/
structure DispatchResult where
  post : Option ScheduledPost
  apiCalled : Bool
  incremented : Bool
  outcome : DispatchOutcome
  deriving DecidableEq, Repr

/-- `post_scheduled_tweet` (`celery_app.py` lines 43–136).  Oracles for the
process-boundary inputs: `counter`/`ttl` are the user's Redis rate state,
`api` the posting API's reply.  Where the source raises, the outcome is
`raised` and `post` is the row state already committed at that point (the
outer `except` block's `db.rollback()` follows a commit in every such path,
so it discards nothing).  In the rate-limited branch the source commits the
reschedule and then evaluates `self.retry` — `self` is unbound in this
untagged task, so a `NameError` is raised after the commit. -/
def post_scheduled_tweet (post : Option ScheduledPost) (user : Option XUser)
    (cipherKey : Nat) (counter : Option Nat) (ttl : Int) (now : Int)
    (api : Except String String) : DispatchResult :=
  match post with
  | none => { post := none, apiCalled := false, incremented := false,
              outcome := .raised "Scheduled post not found" }
  | some sp =>
    if sp.status == "posted" then
      { post := some sp, apiCalled := false, incremented := false,
        outcome := .alreadyPosted }
    else
      match user.bind (·.x_access_token), user with
      | none, _ | _, none =>
        { post := (some { sp with status := "failed",
                                  error_message := some "User not found or no X access token" }),
          apiCalled := false, incremented := false,
          outcome := .raised "User not found or no token" }
      | some encTok, some _u =>
        let arr := check_x_post_rate_limit counter ttl
        if arr.1 then
          match fernet_decrypt cipherKey encTok with
          | .error msg =>
              { post := some sp, apiCalled := false, incremented := false,
                outcome := .raised msg }
          | .ok _token =>
              match api with
              | .ok tweetId =>
                  { post := (some { sp with status := "posted",
                                            x_post_id := some tweetId,
                                            posted_at := some now,
                                            error_message := none }),
                    apiCalled := true, incremented := true,
                    outcome := .posted tweetId }
              | .error e =>
                  { post := (some { sp with status := "failed",
                                            error_message := some e }),
                    apiCalled := true, incremented := false,
                    outcome := .raised e }
        else
          match arr.2.2 with
          | none =>
              { post := some sp, apiCalled := false, incremented := false,
                outcome := .raised "TypeError: unsupported operand" }
          | some reset_in =>
              { post := some { sp with scheduled_for := now + reset_in + 60 },
                apiCalled := false, incremented := false,
                outcome := .raised "NameError: self is not defined" }

/-! ## OAuth callback (`main.py:oauth_callback`)

The Redis pending-state store (`oauth_state:{state} → code_verifier`, set by
the begin endpoint with a 600 s TTL) is an association list of live keys; the
token-exchange network call and the provider's user lookup are oracles. -/

structure AppUser where
  id : Nat
  username : Option String
  x_user_id : Option String
  x_username : Option String
  x_access_token : Option FernetToken
  x_refresh_token : Option FernetToken
  x_token_expires_at : Option Int
  deriving DecidableEq, Repr

/-- The token endpoint's JSON reply; `expires_in` read with
`.get("expires_in", 7200)`. -/
structure TokenData where
  access_token : String
  refresh_token : String
  expires_in : Option Int
  deriving DecidableEq, Repr

/-- `get_me` reply: the provider's user id and username. -/
structure XMe where
  id : String
  username : String
  deriving DecidableEq, Repr

inductive CallbackResult where
  | ok (userId : Nat)
  | httpError (code : Nat) (detail : String)
  deriving DecidableEq, Repr

/-- The observable outcome of the callback route: the user table, the pending
state store, whether the token exchange was attempted, and the response. -/
structure CallbackOutcome where
  users : List AppUser
  store : List (String × String)
  exchangeAttempted : Bool
  result : CallbackResult
  deriving DecidableEq, Repr

def lookupState (store : List (String × String)) (k : String) : Option String :=
  (store.find? (fun p => p.1 == k)).map (·.2)

def deleteState (store : List (String × String)) (k : String) :
    List (String × String) :=
  store.filter (fun p => !(p.1 == k))

/-- `main.py:oauth_callback` (lines 93–183).  `exchange` is the result of
`exchange_code_for_token` (network oracle), `me` the provider user info,
`cipherKey`/`nonce1`/`nonce2` drive the token encryption, `nextId` the id the
database would assign to a newly inserted user row. -/
def oauth_callback (store : List (String × String)) (users : List AppUser)
    (state : String) (exchange : Except String TokenData) (me : XMe)
    (cipherKey nonce1 nonce2 : Nat) (now : Int) (nextId : Nat) :
    CallbackOutcome :=
  match lookupState store ("oauth_state:" ++ state) with
  | none =>
      { users := users, store := store, exchangeAttempted := false,
        result := .httpError 400 "Invalid or expired state parameter" }
  | some _code_verifier =>
      let store1 := deleteState store ("oauth_state:" ++ state)
      match exchange with
      | .error e =>
          { users := users, store := store1, exchangeAttempted := true,
            result := .httpError 400 ("Failed to exchange code for token: " ++ e) }
      | .ok td =>
          let expires_in := td.expires_in.getD 7200
          let encAccess := fernet_encrypt cipherKey nonce1 td.access_token
          let encRefresh := fernet_encrypt cipherKey nonce2 td.refresh_token
          match users.find? (fun u => u.x_user_id == some me.id) with
          | none =>
              let newUser : AppUser :=
                { id := nextId, username := some me.username,
                  x_user_id := some me.id, x_username := some me.username,
                  x_access_token := some encAccess,
                  x_refresh_token := some encRefresh,
                  x_token_expires_at := some (now + expires_in) }
              { users := users ++ [newUser], store := store1,
                exchangeAttempted := true, result := .ok nextId }
          | some u =>
              let users1 := updateFirst (fun v => v.x_user_id == some me.id)
                (fun v => { v with x_access_token := some encAccess,
                                   x_refresh_token := some encRefresh,
                                   x_token_expires_at := some (now + expires_in),
                                   x_username := some me.username })
                users
              { users := users1, store := store1,
                exchangeAttempted := true, result := .ok u.id }

/-! ## base64url (`base64.urlsafe_b64encode` as used in `auth.py`)

Bytes are `Nat` values below 256; the encoder emits the padded encoding and
`rstrip('=')` removes the padding, exactly as the source does. -/

def b64Alphabet : List Char :=
  String.toList "ABCDEFGHIJKLMNOPQRSTUVWXYZabcdefghijklmnopqrstuvwxyz0123456789-_"

def b64Char (n : Nat) : Char := b64Alphabet.getD (n % 64) 'A'

/-- `base64.urlsafe_b64encode`: three input bytes become four alphabet
characters; a final group of one or two bytes is padded with `=`. -/
def b64urlEncode : List Nat → List Char
  | a :: b :: c :: rest =>
      b64Char (a / 4) :: b64Char (a * 16 + b / 16) ::
        b64Char (b * 4 + c / 64) :: b64Char c :: b64urlEncode rest
  | [a] => [b64Char (a / 4), b64Char (a * 16), '=', '=']
  | [a, b] => [b64Char (a / 4), b64Char (a * 16 + b / 16), b64Char (b * 4), '=']
  | [] => []

/-- Python's `str.rstrip('=')`. -/
def rstripEq (cs : List Char) : List Char :=
  (cs.reverse.dropWhile (fun ch => ch == '=')).reverse

/-- `str.encode('utf-8')` for the ASCII strings produced by the encoder. -/
def strBytes (cs : List Char) : List Nat := cs.map Char.toNat

/-! ## SHA-256 (`hashlib.sha256` as used in `auth.py`)

A complete executable implementation over `Nat` with explicit reduction
modulo `2 ^ 32`. -/

def w32 (n : Nat) : Nat := n % 4294967296

def rotr (n x : Nat) : Nat := w32 ((x >>> n) ||| (x <<< (32 - n)))

def shaCh (e f g : Nat) : Nat := (e &&& f) ^^^ ((e ^^^ 4294967295) &&& g)

def shaMaj (a b c : Nat) : Nat := (a &&& b) ^^^ (a &&& c) ^^^ (b &&& c)

def bigSigma0 (x : Nat) : Nat := rotr 2 x ^^^ rotr 13 x ^^^ rotr 22 x

def bigSigma1 (x : Nat) : Nat := rotr 6 x ^^^ rotr 11 x ^^^ rotr 25 x

def smallSigma0 (x : Nat) : Nat := rotr 7 x ^^^ rotr 18 x ^^^ (x >>> 3)

def smallSigma1 (x : Nat) : Nat := rotr 17 x ^^^ rotr 19 x ^^^ (x >>> 10)

structure Hash8 where
  a : Nat
  b : Nat
  c : Nat
  d : Nat
  e : Nat
  f : Nat
  g : Nat
  h : Nat
  deriving DecidableEq, Repr

def initH : Hash8 :=
  ⟨1779033703, 3144134277, 1013904242, 2773480762,
   1359893119, 2600822924, 528734635, 1541459225⟩

def K256 : List Nat :=
  [1116352408, 1899447441, 3049323471, 3921009573,
   961987163, 1508970993, 2453635748, 2870763221,
   3624381080, 310598401, 607225278, 1426881987,
   1925078388, 2162078206, 2614888103, 3248222580,
   3835390401, 4022224774, 264347078, 604807628,
   770255983, 1249150122, 1555081692, 1996064986,
   2554220882, 2821834349, 2952996808, 3210313671,
   3336571891, 3584528711, 113926993, 338241895,
   666307205, 773529912, 1294757372, 1396182291,
   1695183700, 1986661051, 2177026350, 2456956037,
   2730485921, 2820302411, 3259730800, 3345764771,
   3516065817, 3600352804, 4094571909, 275423344,
   430227734, 506948616, 659060556, 883997877,
   958139571, 1322822218, 1537002063, 1747873779,
   1955562222, 2024104815, 2227730452, 2361852424,
   2428436474, 2756734187, 3204031479, 3329325298]

/-- Big-endian bytes of four input bytes as one 32-bit word. -/
def toWords : List Nat → List Nat
  | a :: b :: c :: d :: rest => (((a * 256 + b) * 256 + c) * 256 + d) :: toWords rest
  | _ => []

/-- Extend the sixteen block words to the 64-entry message schedule. -/
def msgSchedule (ws : List Nat) : List Nat :=
  (List.range 48).foldl
    (fun acc _ =>
      let n := acc.length
      acc ++ [w32 (acc.getD (n - 16) 0 + smallSigma0 (acc.getD (n - 15) 0) +
                   acc.getD (n - 7) 0 + smallSigma1 (acc.getD (n - 2) 0))])
    ws

def compressRound (st : Hash8) (kw : Nat × Nat) : Hash8 :=
  let t1 := w32 (st.h + bigSigma1 st.e + shaCh st.e st.f st.g + kw.1 + kw.2)
  let t2 := w32 (bigSigma0 st.a + shaMaj st.a st.b st.c)
  ⟨w32 (t1 + t2), st.a, st.b, st.c, w32 (st.d + t1), st.e, st.f, st.g⟩

def processBlock (st : Hash8) (block : List Nat) : Hash8 :=
  let ws := msgSchedule (toWords block)
  let fin := (K256.zip ws).foldl compressRound st
  ⟨w32 (st.a + fin.a), w32 (st.b + fin.b), w32 (st.c + fin.c), w32 (st.d + fin.d),
   w32 (st.e + fin.e), w32 (st.f + fin.f), w32 (st.g + fin.g), w32 (st.h + fin.h)⟩

/-- `k` big-endian bytes of `n`. -/
def toBytesBE : Nat → Nat → List Nat
  | 0, _ => []
  | k + 1, n => ((n >>> (8 * k)) % 256) :: toBytesBE k n

/-- SHA-256 padding: `0x80`, zeros to 56 mod 64, then the 64-bit bit length. -/
def padMsg (m : List Nat) : List Nat :=
  let padZeros := (64 - ((m.length + 9) % 64)) % 64
  m ++ [128] ++ List.replicate padZeros 0 ++ toBytesBE 8 (m.length * 8)

def toBlocks (l : List Nat) : List (List Nat) :=
  if hl : l.isEmpty then [] else l.take 64 :: toBlocks (l.drop 64)
termination_by l.length
decreasing_by
  simp only [List.length_drop]
  have : 0 < l.length := by
    cases l with
    | nil => simp at hl
    | cons x xs => simp
  omega

def sha256 (m : List Nat) : List Nat :=
  let hfin := (toBlocks (padMsg m)).foldl processBlock initH
  toBytesBE 4 hfin.a ++ toBytesBE 4 hfin.b ++ toBytesBE 4 hfin.c ++
    toBytesBE 4 hfin.d ++ toBytesBE 4 hfin.e ++ toBytesBE 4 hfin.f ++
    toBytesBE 4 hfin.g ++ toBytesBE 4 hfin.h

/-! ## PKCE generator (`auth.py:generate_pkce_pair`, lines 74–90)

The 32 fresh random bytes of `secrets.token_bytes(32)` enter as `entropy`. -/

def generate_pkce_pair (entropy : List Nat) : List Char × List Char :=
  let code_verifier := rstripEq (b64urlEncode entropy)
  let challenge_bytes := sha256 (strBytes code_verifier)
  let code_challenge := rstripEq (b64urlEncode challenge_bytes)
  (code_verifier, code_challenge)

/-! ## Lemmas about the encoders -/

theorem b64Char_ne_pad (n : Nat) : b64Char n ≠ '=' := by
  have hlt : n % 64 < 64 := Nat.mod_lt _ (by norm_num)
  have key : ∀ i, i < 64 → b64Alphabet.getD i 'A' ≠ '=' := by decide
  exact key (n % 64) hlt

theorem pad_ne_b64Char (n : Nat) : '=' ≠ b64Char n :=
  fun h => b64Char_ne_pad n h.symm

/-- A byte list of length `≡ 2 (mod 3)` encodes to a padding-free body of
`4 * (len / 3) + 3` characters followed by one `=`. -/
theorem b64urlEncode_mod2 (bs : List Nat) (h : bs.length % 3 = 2) :
    ∃ body, b64urlEncode bs = body ++ ['='] ∧
      body.length = 4 * (bs.length / 3) + 3 ∧ '=' ∉ body := by
  induction bs using b64urlEncode.induct with
  | case1 a b c rest ih =>
      have hrest : rest.length % 3 = 2 := by
        simp only [List.length_cons] at h
        omega
      obtain ⟨body, hEq, hLen, hMem⟩ := ih hrest
      refine ⟨b64Char (a / 4) :: b64Char (a * 16 + b / 16) ::
                b64Char (b * 4 + c / 64) :: b64Char c :: body, ?_, ?_, ?_⟩
      · simp [b64urlEncode, hEq]
      · have hdiv : (rest.length + 3) / 3 = rest.length / 3 + 1 :=
          Nat.add_div_right _ (by norm_num)
        simp only [List.length_cons, hLen, hdiv]
        ring
      · simp only [List.mem_cons, not_or]
        exact ⟨pad_ne_b64Char _, pad_ne_b64Char _, pad_ne_b64Char _,
               pad_ne_b64Char _, hMem⟩
  | case2 a => simp at h
  | case3 a b =>
      refine ⟨[b64Char (a / 4), b64Char (a * 16 + b / 16), b64Char (b * 4)],
              by simp [b64urlEncode], by simp, ?_⟩
      simp only [List.mem_cons, not_or]
      exact ⟨pad_ne_b64Char _, pad_ne_b64Char _, pad_ne_b64Char _, by simp⟩
  | case4 => simp at h

theorem rstripEq_append_pad (body : List Char) (h : '=' ∉ body) :
    rstripEq (body ++ ['=']) = body := by
  unfold rstripEq
  rw [List.reverse_append]
  simp only [List.reverse_singleton, List.singleton_append, List.dropWhile_cons]
  simp only [beq_self_eq_true, if_true]
  have hself : List.dropWhile (fun ch => ch == '=') body.reverse = body.reverse := by
    cases hrev : body.reverse with
    | nil => simp
    | cons x xs =>
        have hx : x ∈ body := by
          rw [← List.mem_reverse, hrev]
          exact List.mem_cons_self x xs
        have hxe : (x == '=') = false := by
          simp only [beq_eq_false_iff_ne]
          intro hcontra
          exact h (hcontra ▸ hx)
        simp [List.dropWhile_cons, hxe]
  rw [hself, List.reverse_reverse]

theorem toBytesBE_length (k n : Nat) : (toBytesBE k n).length = k := by
  induction k generalizing n with
  | zero => rfl
  | succ k ih => simp [toBytesBE, ih]

theorem sha256_length (m : List Nat) : (sha256 m).length = 32 := by
  simp [sha256, toBytesBE_length]

theorem rstrip_b64urlEncode_spec (bs : List Nat) (h : bs.length % 3 = 2) :
    (rstripEq (b64urlEncode bs)).length = 4 * (bs.length / 3) + 3 ∧
      '=' ∉ rstripEq (b64urlEncode bs) := by
  obtain ⟨body, hEq, hLen, hMem⟩ := b64urlEncode_mod2 bs h
  rw [hEq, rstripEq_append_pad body hMem]
  exact ⟨hLen, hMem⟩

/-! ## Claim C6 -/

/-- C6: every `(verifier, challenge)` pair produced by `generate_pkce_pair`
from 32 fresh random bytes satisfies: the verifier is the unpadded URL-safe
base64 encoding of those bytes and has exactly 43 characters (within RFC
7636's 43–128 bound), and the challenge is the unpadded URL-safe base64
encoding of the SHA-256 digest of the verifier, byte for byte; neither
string carries padding. -/
theorem C6_pkce_pair (entropy : List Nat) (h : entropy.length = 32) :
    (generate_pkce_pair entropy).1 = rstripEq (b64urlEncode entropy) ∧
    (generate_pkce_pair entropy).2 =
      rstripEq (b64urlEncode (sha256 (strBytes (generate_pkce_pair entropy).1))) ∧
    (generate_pkce_pair entropy).1.length = 43 ∧
    43 ≤ (generate_pkce_pair entropy).1.length ∧
    (generate_pkce_pair entropy).1.length ≤ 128 ∧
    (generate_pkce_pair entropy).2.length = 43 ∧
    '=' ∉ (generate_pkce_pair entropy).1 ∧
    '=' ∉ (generate_pkce_pair entropy).2 := by
  have h1 : (generate_pkce_pair entropy).1 = rstripEq (b64urlEncode entropy) := rfl
  have h2 : (generate_pkce_pair entropy).2 =
      rstripEq (b64urlEncode (sha256 (strBytes (rstripEq (b64urlEncode entropy))))) := rfl
  have hv := rstrip_b64urlEncode_spec entropy (by omega)
  rw [h] at hv
  norm_num at hv
  have hcmod : (sha256 (strBytes (rstripEq (b64urlEncode entropy)))).length % 3 = 2 := by
    rw [sha256_length]
  have hc := rstrip_b64urlEncode_spec _ hcmod
  rw [sha256_length] at hc
  norm_num at hc
  refine ⟨h1, ?_, ?_, ?_, ?_, ?_, ?_, ?_⟩
  · rw [h2, h1]
  · rw [h1]; exact hv.1
  · rw [h1, hv.1]
  · rw [h1, hv.1]; norm_num
  · rw [h2]; exact hc.1
  · rw [h1]; exact hv.2
  · rw [h2]; exact hc.2

/-- Witness for C6 at the concrete entropy `[0, 1, …, 31]`. -/
theorem C6_pkce_pair_witness :
    (List.range 32).length = 32 ∧
    ((generate_pkce_pair (List.range 32)).1 = rstripEq (b64urlEncode (List.range 32)) ∧
     (generate_pkce_pair (List.range 32)).2 =
       rstripEq (b64urlEncode (sha256 (strBytes (generate_pkce_pair (List.range 32)).1))) ∧
     (generate_pkce_pair (List.range 32)).1.length = 43 ∧
     43 ≤ (generate_pkce_pair (List.range 32)).1.length ∧
     (generate_pkce_pair (List.range 32)).1.length ≤ 128 ∧
     (generate_pkce_pair (List.range 32)).2.length = 43 ∧
     '=' ∉ (generate_pkce_pair (List.range 32)).1 ∧
     '=' ∉ (generate_pkce_pair (List.range 32)).2) :=
  ⟨by simp, C6_pkce_pair (List.range 32) (by simp)⟩

/-! ## Claim C5 -/

/-- C5: decrypting the encryption of any token string under the same cipher
returns that string, and decrypting any token that was not produced by
`encrypt_token` under the same key fails with a decryption error and never
returns a value. -/
theorem C5_token_roundtrip (c : TokenEncryption) (nonce : Nat) (t : String)
    (tok : FernetToken) (h : ∀ n p, tok ≠ c.encrypt_token n p) :
    c.decrypt_token (c.encrypt_token nonce t) = .ok t ∧
    ∃ msg, c.decrypt_token tok = .error msg := by
  constructor
  · simp [TokenEncryption.decrypt_token, TokenEncryption.encrypt_token,
          fernet_decrypt, fernet_encrypt]
  · have hk : tok.key ≠ c.key := by
      intro hkey
      apply h tok.nonce tok.plain
      cases tok with
      | mk k n p =>
          simp only [TokenEncryption.encrypt_token, fernet_encrypt] at hkey ⊢
          simp_all
    exact ⟨"DecryptionError: InvalidToken",
           by simp [TokenEncryption.decrypt_token, fernet_decrypt, hk]⟩

/-- Witness for C5: cipher keyed `1`, a fresh token, and the foreign token
`⟨2, 0, "junk"⟩` that no encryption under key `1` can produce. -/
theorem C5_token_roundtrip_witness :
    (TokenEncryption.mk 1).decrypt_token
        ((TokenEncryption.mk 1).encrypt_token 0 "x-oauth-token") = .ok "x-oauth-token" ∧
    ∃ msg, (TokenEncryption.mk 1).decrypt_token ⟨2, 0, "junk"⟩ = .error msg :=
  C5_token_roundtrip ⟨1⟩ 0 "x-oauth-token" ⟨2, 0, "junk"⟩
    (fun n p hq => by
      simp [TokenEncryption.encrypt_token, fernet_encrypt] at hq)

/-! ## Claim C8 -/

/-- C8: invoking the dispatcher on a `ScheduledPost` already in status
`posted` leaves every field unchanged, performs no outbound posting call and
no rate-counter increment, whatever the user row, cipher, rate state and
posting API would have replied. -/
theorem C8_dispatcher_idempotent (sp : ScheduledPost) (user : Option XUser)
    (cipherKey : Nat) (counter : Option Nat) (ttl now : Int)
    (api : Except String String) (h : sp.status = "posted") :
    post_scheduled_tweet (some sp) user cipherKey counter ttl now api =
      { post := some sp, apiCalled := false, incremented := false,
        outcome := .alreadyPosted } := by
  simp [post_scheduled_tweet, h]

/-- Witness for C8 at a concrete already-posted row. -/
theorem C8_dispatcher_idempotent_witness :
    (ScheduledPost.mk 7 3 "hello" 1000 (some 990) "posted" (some "tw1") none).status
        = "posted" ∧
    post_scheduled_tweet
        (some (ScheduledPost.mk 7 3 "hello" 1000 (some 990) "posted" (some "tw1") none))
        (some ⟨3, some ⟨1, 0, "tok"⟩⟩) 1 (some 5) 100 2000 (.ok "tw2") =
      { post := some (ScheduledPost.mk 7 3 "hello" 1000 (some 990) "posted" (some "tw1") none),
        apiCalled := false, incremented := false, outcome := .alreadyPosted } :=
  ⟨rfl, C8_dispatcher_idempotent _ _ 1 (some 5) 100 2000 (.ok "tw2") rfl⟩

/-! ## Claim C7 -/

/-- C7: a pending `ScheduledPost` due now, whose owner's rate counter stands
at the 100/100 limit with a positive window TTL, is not dropped and triggers
no posting API call and no counter increment: the committed row is still
`pending` and its `scheduled_for` is moved to `now + reset_ttl + 60`, a
strictly later time that advances it by at least the returned reset window. -/
theorem C7_rate_limited_reschedule (sp : ScheduledPost) (u : XUser)
    (cipherKey : Nat) (encTok : FernetToken) (ttl now : Int)
    (api : Except String String)
    (hstatus : sp.status = "pending") (htok : u.x_access_token = some encTok)
    (httl : 0 < ttl) (hdue : sp.scheduled_for ≤ now) :
    post_scheduled_tweet (some sp) (some u) cipherKey (some 100) ttl now api =
      { post := some { sp with scheduled_for := now + ttl + 60 },
        apiCalled := false, incremented := false,
        outcome := .raised "NameError: self is not defined" } ∧
    ({ sp with scheduled_for := now + ttl + 60 } : ScheduledPost).status = "pending" ∧
    sp.scheduled_for < now + ttl + 60 ∧
    ttl ≤ (now + ttl + 60) - sp.scheduled_for := by
  refine ⟨?_, by simpa using hstatus, by omega, by omega⟩
  simp [post_scheduled_tweet, hstatus, htok, check_x_post_rate_limit,
        check_rate_limit, get_ttl, X_API_POST_LIMIT, httl]

/-- Witness for C7: a post due at time 100 with the counter at 100/100 and
300 s left in the window is rescheduled to `100 + 300 + 60 = 460`. -/
theorem C7_rate_limited_reschedule_witness :
    (ScheduledPost.mk 7 3 "hello" 100 none "pending" none none).status = "pending" ∧
    (XUser.mk 3 (some ⟨1, 0, "tok"⟩)).x_access_token = some ⟨1, 0, "tok"⟩ ∧
    (0 : Int) < 300 ∧
    (ScheduledPost.mk 7 3 "hello" 100 none "pending" none none).scheduled_for ≤ 100 ∧
    (post_scheduled_tweet
        (some (ScheduledPost.mk 7 3 "hello" 100 none "pending" none none))
        (some (XUser.mk 3 (some ⟨1, 0, "tok"⟩))) 1 (some 100) 300 100 (.ok "tw2") =
      { post := some { ScheduledPost.mk 7 3 "hello" 100 none "pending" none none with
                        scheduled_for := 100 + 300 + 60 },
        apiCalled := false, incremented := false,
        outcome := .raised "NameError: self is not defined" } ∧
     ({ ScheduledPost.mk 7 3 "hello" 100 none "pending" none none with
         scheduled_for := 100 + 300 + 60 } : ScheduledPost).status = "pending" ∧
     (ScheduledPost.mk 7 3 "hello" 100 none "pending" none none).scheduled_for
        < 100 + 300 + 60 ∧
     (300 : Int) ≤ (100 + 300 + 60) -
        (ScheduledPost.mk 7 3 "hello" 100 none "pending" none none).scheduled_for) :=
  ⟨rfl, rfl, by decide, by decide,
   C7_rate_limited_reschedule _ _ 1 ⟨1, 0, "tok"⟩ 300 100 (.ok "tw2")
     rfl rfl (by decide) (by decide)⟩

/-! ## Claim C10 -/

/-- C10: an OAuth callback whose `state` is absent from the pending-state
store is rejected with a 400 invalid-state error before the token exchange is
attempted, and the user table and state store are left untouched. -/
theorem C10_invalid_state (store : List (String × String)) (users : List AppUser)
    (state : String) (exchange : Except String TokenData) (me : XMe)
    (cipherKey nonce1 nonce2 : Nat) (now : Int) (nextId : Nat)
    (h : lookupState store ("oauth_state:" ++ state) = none) :
    oauth_callback store users state exchange me cipherKey nonce1 nonce2 now nextId =
      { users := users, store := store, exchangeAttempted := false,
        result := .httpError 400 "Invalid or expired state parameter" } := by
  simp [oauth_callback, h]

/-- Witness for C10: one registered user, an empty state store, a token
exchange oracle that would have succeeded — the callback never reaches it. -/
theorem C10_invalid_state_witness :
    lookupState [] ("oauth_state:" ++ "attacker") = none ∧
    oauth_callback [] [AppUser.mk 1 (some "alice") (some "42") (some "alice")
        none none none]
        "attacker" (.ok ⟨"at", "rt", some 7200⟩) ⟨"42", "alice"⟩ 1 0 0 500 2 =
      { users := [AppUser.mk 1 (some "alice") (some "42") (some "alice")
          none none none],
        store := [], exchangeAttempted := false,
        result := .httpError 400 "Invalid or expired state parameter" } :=
  ⟨rfl, C10_invalid_state [] _ "attacker" (.ok ⟨"at", "rt", some 7200⟩)
    ⟨"42", "alice"⟩ 1 0 0 500 2 rfl⟩

/-! ## Subscription creation and reachability

`main.py:create_checkout_session` (lines 608–622) inserts the only fresh
Subscription rows: status `incomplete`, plan `free`.  All later mutations go
through the webhook pipeline. -/

def mkInitialSubscription (id user_id : Nat) (customer price : String) :
    Subscription :=
  { id := id, user_id := user_id, stripe_customer_id := customer,
    stripe_subscription_id := none, stripe_price_id := price,
    status := "incomplete", plan_type := "free",
    current_period_start := none, current_period_end := none,
    cancel_at_period_end := false, canceled_at := none }

/-- Database states reachable for one user's billing data: a subscription row
as created by the checkout route, then any sequence of verified webhook
deliveries. -/
inductive ReachableDB : DBState → Prop where
  | init (id uid : Nat) (cust price : String) :
      ReachableDB ⟨[mkInitialSubscription id uid cust price], [], []⟩
  | step (st : DBState) (e : StripeEvent) (now : Int) :
      ReachableDB st → ReachableDB (stripe_webhook e now st).1

/-! ## Claim C1 -/

/-- C1 counterexample: a `customer.subscription.updated` delivery moving an
`active`/`pro` subscription to `past_due` leaves `plan_type = "pro"` — the
claim requires the handler to set it to `"free"` for every non-`active`
status, including `past_due`.  The period bounds and status are overwritten,
but the `plan_type` branch of the source only fires for `active`, `canceled`
and `unpaid`. -/
theorem C1_subscription_updated_counterexample :
    handle_subscription_updated ⟨"sub_1", "past_due", 100, 200, false⟩
        ⟨[⟨1, 1, "cus_1", some "sub_1", "price_1", "active", "pro",
           none, none, false, none⟩], [], []⟩ =
      .ok ⟨[⟨1, 1, "cus_1", some "sub_1", "price_1", "past_due", "pro",
             some 100, some 200, false, none⟩], [], []⟩ := rfl

/-- C1 amended: `handle_subscription_updated` overwrites status and the
period bounds verbatim and sets `plan_type` to `"pro"` when the new status is
`"active"`, to `"free"` when it is `"canceled"` or `"unpaid"`, and leaves it
unchanged for every other status (including `past_due` and `incomplete`). -/
theorem C1_subscription_updated_amended (d : StripeSubObj)
    (pre post : List Subscription) (s : Subscription)
    (pays : List PaymentHistory) (evs : List StripeWebhookEvent)
    (hpre : ∀ x ∈ pre, (x.stripe_subscription_id == some d.id) = false)
    (hs : s.stripe_subscription_id = some d.id) :
    handle_subscription_updated d ⟨pre ++ s :: post, pays, evs⟩ =
      .ok ⟨pre ++
        { s with status := d.status,
                 current_period_start := some d.current_period_start,
                 current_period_end := some d.current_period_end,
                 cancel_at_period_end := d.cancel_at_period_end,
                 plan_type :=
                   if d.status = "active" then "pro"
                   else if d.status = "canceled" ∨ d.status = "unpaid" then "free"
                   else s.plan_type } :: post, pays, evs⟩ := by
  have happ : applySubUpdate d s =
      { s with status := d.status,
               current_period_start := some d.current_period_start,
               current_period_end := some d.current_period_end,
               cancel_at_period_end := d.cancel_at_period_end,
               plan_type :=
                 if d.status = "active" then "pro"
                 else if d.status = "canceled" ∨ d.status = "unpaid" then "free"
                 else s.plan_type } := by
    by_cases h1 : d.status = "active"
    · simp [applySubUpdate, h1]
    · by_cases h2 : d.status = "canceled"
      · simp [applySubUpdate, h1, h2]
      · by_cases h3 : d.status = "unpaid"
        · simp [applySubUpdate, h1, h2, h3]
        · simp [applySubUpdate, h1, h2, h3]
  simp only [handle_subscription_updated]
  rw [updateFirst_append_of_none _ _ _ _ hpre,
      updateFirst_cons_pos _ _ _ _ (by simp [hs]), happ]

/-- Witness for the amended C1 at the counterexample's input: the update to
`past_due` keeps `plan_type = "pro"`. -/
theorem C1_subscription_updated_amended_witness :
    (∀ x ∈ ([] : List Subscription), (x.stripe_subscription_id == some "sub_1") = false) ∧
    (Subscription.mk 1 1 "cus_1" (some "sub_1") "price_1" "active" "pro"
        none none false none).stripe_subscription_id = some "sub_1" ∧
    handle_subscription_updated ⟨"sub_1", "past_due", 100, 200, false⟩
        ⟨[] ++ (Subscription.mk 1 1 "cus_1" (some "sub_1") "price_1" "active" "pro"
                 none none false none) :: [], [], []⟩ =
      .ok ⟨[] ++
        { Subscription.mk 1 1 "cus_1" (some "sub_1") "price_1" "active" "pro"
            none none false none with
          status := "past_due",
          current_period_start := some (100 : Int),
          current_period_end := some (200 : Int),
          cancel_at_period_end := false,
          plan_type :=
            if ("past_due" : String) = "active" then "pro"
            else if ("past_due" : String) = "canceled" ∨ ("past_due" : String) = "unpaid"
              then "free"
            else "pro" } :: [], [], []⟩ :=
  ⟨by simp, rfl,
   C1_subscription_updated_amended ⟨"sub_1", "past_due", 100, 200, false⟩ [] []
     (Subscription.mk 1 1 "cus_1" (some "sub_1") "price_1" "active" "pro"
       none none false none) [] [] (by simp) rfl⟩

/-! ## Claim C9 -/

/-- C9 counterexample: a `checkout.session.completed` delivery referencing a
subscription in status `canceled` still attaches the provider's subscription
id and moves the row to `active` — the claim requires the handler to act only
when the row is still `incomplete` and to leave any other status unchanged,
but the source has no such guard. -/
theorem C9_checkout_counterexample :
    handle_checkout_completed ⟨some 1, "sub_9"⟩
        ⟨[⟨1, 1, "cus_1", some "sub_1", "price_1", "canceled", "free",
           none, none, false, none⟩], [], []⟩ =
      .ok ⟨[⟨1, 1, "cus_1", some "sub_9", "price_1", "active", "free",
             none, none, false, none⟩], [], []⟩ := rfl

/-- C9 amended: whenever the checkout session's metadata carries a
subscription id matching a local row, the handler attaches the provider's
subscription id and moves that row to `active` regardless of its current
status. -/
theorem C9_checkout_amended (sid : Nat) (subRef : String)
    (pre post : List Subscription) (s : Subscription)
    (pays : List PaymentHistory) (evs : List StripeWebhookEvent)
    (hpre : ∀ x ∈ pre, (x.id == sid) = false) (hs : s.id = sid) :
    handle_checkout_completed ⟨some sid, subRef⟩ ⟨pre ++ s :: post, pays, evs⟩ =
      .ok ⟨pre ++
        { s with stripe_subscription_id := some subRef,
                 status := "active" } :: post, pays, evs⟩ := by
  simp only [handle_checkout_completed]
  rw [updateFirst_append_of_none _ _ _ _ hpre,
      updateFirst_cons_pos _ _ _ _ (by simp [hs])]

/-- Witness for the amended C9 at the counterexample's input. -/
theorem C9_checkout_amended_witness :
    (∀ x ∈ ([] : List Subscription), (x.id == 1) = false) ∧
    (Subscription.mk 1 1 "cus_1" (some "sub_1") "price_1" "canceled" "free"
        none none false none).id = 1 ∧
    handle_checkout_completed ⟨some 1, "sub_9"⟩
        ⟨[] ++ (Subscription.mk 1 1 "cus_1" (some "sub_1") "price_1" "canceled" "free"
                 none none false none) :: [], [], []⟩ =
      .ok ⟨[] ++
        { Subscription.mk 1 1 "cus_1" (some "sub_1") "price_1" "canceled" "free"
            none none false none with
          stripe_subscription_id := some "sub_9",
          status := "active" } :: [], [], []⟩ :=
  ⟨by simp, rfl,
   C9_checkout_amended 1 "sub_9" [] []
     (Subscription.mk 1 1 "cus_1" (some "sub_1") "price_1" "canceled" "free"
       none none false none) [] [] (by simp) rfl⟩

/-! ## Claim C2 -/

/-- C2 counterexample: a reachable state violating the invariant
"`plan_type = pro` only while `status = active`": create a subscription,
complete checkout, receive an `active` update (making the plan `pro`), then
receive a `past_due` update — status becomes `past_due` while `plan_type`
stays `pro`. -/
theorem C2_plan_invariant_counterexample :
    ReachableDB
      (stripe_webhook ⟨"evt_3", .subUpdated ⟨"sub_1", "past_due", 100, 200, false⟩⟩ 30
        (stripe_webhook ⟨"evt_2", .subUpdated ⟨"sub_1", "active", 100, 200, false⟩⟩ 20
          (stripe_webhook ⟨"evt_1", .checkout ⟨some 1, "sub_1"⟩⟩ 10
            ⟨[mkInitialSubscription 1 1 "cus_1" "price_1"], [], []⟩).1).1).1 ∧
    ((stripe_webhook ⟨"evt_3", .subUpdated ⟨"sub_1", "past_due", 100, 200, false⟩⟩ 30
        (stripe_webhook ⟨"evt_2", .subUpdated ⟨"sub_1", "active", 100, 200, false⟩⟩ 20
          (stripe_webhook ⟨"evt_1", .checkout ⟨some 1, "sub_1"⟩⟩ 10
            ⟨[mkInitialSubscription 1 1 "cus_1" "price_1"], [], []⟩).1).1).1.subscriptions.map
      (fun s => (s.status, s.plan_type)) = [("past_due", "pro")]) :=
  ⟨ReachableDB.step _ _ _ (ReachableDB.step _ _ _ (ReachableDB.step _ _ _
     (ReachableDB.init 1 1 "cus_1" "price_1"))),
   by decide⟩

/-- C2 amended: reachable subscription states can carry `plan_type = "pro"`
with a non-`active` status, but the user's `is_pro` boolean is computed on
read strictly as the conjunction (a subscription row exists, its status is
`active`, and its plan type is `pro`), and is false whenever the user has no
subscription row. -/
theorem C2_is_pro_amended (subscription : Option Subscription) :
    (is_pro subscription = true ↔
      ∃ s, subscription = some s ∧ s.status = "active" ∧ s.plan_type = "pro") ∧
    is_pro none = false := by
  refine ⟨?_, rfl⟩
  cases subscription with
  | none => simp [is_pro]
  | some s => simp [is_pro]

/-! ## Ledger lemmas for the webhook pipeline -/

theorem find?_updateFirst_same {α : Type} (p : α → Bool) (f : α → α)
    (hf : ∀ x, p (f x) = p x) (l : List α) :
    List.find? p (updateFirst p f l) = (List.find? p l).map f := by
  induction l with
  | nil => rfl
  | cons x xs ih =>
      by_cases hx : p x = true
      · rw [updateFirst_cons_pos _ _ _ _ hx,
            List.find?_cons_of_pos _ (by rw [hf]; exact hx),
            List.find?_cons_of_pos _ hx, Option.map_some']
      · have hx2 : p x = false := by simpa using hx
        rw [updateFirst_cons_neg _ _ _ _ hx2,
            List.find?_cons_of_neg _ (by simp [hx2]),
            List.find?_cons_of_neg _ (by simp [hx2]), ih]

/-- No handler touches the idempotency ledger on its success path. -/
theorem runHandler_ok_events (d : EventData) (now : Int) (st st2 : DBState)
    (h : runHandler d now st = .ok st2) :
    st2.webhook_events = st.webhook_events := by
  cases d <;>
    simp only [runHandler, handle_checkout_completed, handle_subscription_updated,
               handle_subscription_deleted, handle_invoice_paid,
               handle_invoice_payment_failed] at h <;>
    repeat' split at h
  all_goals first
    | (injection h with h2; subst h2; rfl)
    | simp at h

/-- No handler touches the idempotency ledger before raising either. -/
theorem runHandler_error_events (d : EventData) (now : Int) (st : DBState)
    (msg : String) (stP : DBState)
    (h : runHandler d now st = .error (msg, stP)) :
    stP.webhook_events = st.webhook_events := by
  cases d <;>
    simp only [runHandler, handle_checkout_completed, handle_subscription_updated,
               handle_subscription_deleted, handle_invoice_paid,
               handle_invoice_payment_failed] at h <;>
    repeat' split at h
  all_goals first
    | (injection h with h2
       rw [Prod.mk.injEq] at h2
       obtain ⟨h3, h4⟩ := h2
       subst h4
       rfl)
    | simp at h

/-- On a successful dispatch the final ledger is the incoming ledger with the
event's entry marked processed. -/
theorem processEvent_success_marks (e : StripeEvent) (now : Int) (st st1 : DBState)
    (h : processEvent e now st = (st1, .success)) :
    st1.webhook_events =
      updateFirst (fun r => r.stripe_event_id == e.id)
        (fun r => { r with processed := true, processed_at := some now })
        st.webhook_events := by
  unfold processEvent at h
  cases hrun : runHandler e.data now st with
  | ok st2 =>
      rw [hrun] at h
      simp only [Prod.mk.injEq] at h
      rw [← h.1, runHandler_ok_events e.data now st st2 hrun]
  | error p =>
      obtain ⟨m, stP⟩ := p
      rw [hrun] at h
      simp at h

/-- On a failed dispatch the final ledger is the handler's partial ledger
(equal to the incoming one) with the event's entry stamped with the error. -/
theorem processEvent_failure_stamps (e : StripeEvent) (now : Int) (st st1 : DBState)
    (msg : String) (h : processEvent e now st = (st1, .failure msg)) :
    st1.webhook_events =
      updateFirst (fun r => r.stripe_event_id == e.id)
        (fun r => { r with processing_error := some msg })
        st.webhook_events := by
  unfold processEvent at h
  cases hrun : runHandler e.data now st with
  | ok st2 =>
      rw [hrun] at h
      simp at h
  | error p =>
      obtain ⟨m, stP⟩ := p
      rw [hrun] at h
      simp only [Prod.mk.injEq, WebhookOutcome.failure.injEq] at h
      obtain ⟨h1, h2⟩ := h
      have hev := runHandler_error_events e.data now st m stP hrun
      rw [← h2, ← h1]
      show updateFirst (fun r => r.stripe_event_id == e.id)
          (fun r => { r with processing_error := some m }) stP.webhook_events =
        updateFirst (fun r => r.stripe_event_id == e.id)
          (fun r => { r with processing_error := some m }) st.webhook_events
      rw [hev]

/-! ## Claim C3 -/

/-- C3: once a webhook event id has been processed successfully, delivering
an event with the same id again returns `already_processed` and leaves the
whole database state — subscriptions, the PaymentHistory ledger and the
idempotency ledger — exactly as it was: the end state equals that of a single
application and the second delivery performs zero additional writes. -/
theorem C3_webhook_idempotent (e : StripeEvent) (now now2 : Int) (st st1 : DBState)
    (h : stripe_webhook e now st = (st1, .success)) :
    stripe_webhook e now2 st1 = (st1, .alreadyProcessed) := by
  have key : ∃ r1, st1.webhook_events.find? (fun r => r.stripe_event_id == e.id)
      = some r1 ∧ r1.processed = true := by
    cases hfind : st.webhook_events.find? (fun r => r.stripe_event_id == e.id) with
    | some r =>
        simp only [stripe_webhook, hfind] at h
        by_cases hproc : r.processed
        · simp [hproc] at h
        · simp only [hproc, if_false, Bool.false_eq_true] at h
          have hmark := processEvent_success_marks e now st st1 h
          refine ⟨{ r with processed := true, processed_at := some now }, ?_, rfl⟩
          rw [hmark, find?_updateFirst_same
                (fun r : StripeWebhookEvent => r.stripe_event_id == e.id)
                (fun r : StripeWebhookEvent =>
                  { r with processed := true, processed_at := some now })
                (fun x => rfl), hfind, Option.map_some']
    | none =>
        simp only [stripe_webhook, hfind] at h
        have hmark := processEvent_success_marks e now _ st1 h
        refine ⟨⟨e.id, eventTypeName e.data, true, none, some now⟩, ?_, rfl⟩
        rw [hmark]
        show List.find? _ (updateFirst _ _ (st.webhook_events ++ [_])) = _
        rw [find?_updateFirst_same
              (fun r : StripeWebhookEvent => r.stripe_event_id == e.id)
              (fun r : StripeWebhookEvent =>
                { r with processed := true, processed_at := some now })
              (fun x => rfl), List.find?_append, hfind, Option.none_or]
        simp
  obtain ⟨r1, hfind1, hproc1⟩ := key
  simp [stripe_webhook, hfind1, hproc1]

/-- Witness for C3: an `invoice.paid` event applied to an active subscription
succeeds, and replaying the same event id against the resulting state
short-circuits with `already_processed` and changes nothing. -/
theorem C3_webhook_idempotent_witness :
    stripe_webhook
        ⟨"evt_5", .invoicePaid ⟨"in_2", some "sub_1", "pi_2", 2900, 0, "usd",
                                none, some 40, none⟩⟩ 45
        ⟨[⟨1, 1, "cus_1", some "sub_1", "price_1", "active", "pro",
           some 100, some 200, false, none⟩], [], []⟩ =
      (⟨[⟨1, 1, "cus_1", some "sub_1", "price_1", "active", "pro",
          some 100, some 200, false, none⟩],
        [⟨1, some "pi_2", some "in_2", 2900, "usd", "succeeded",
          "Subscription payment", none, some 40⟩],
        [⟨"evt_5", "invoice.paid", true, none, some 45⟩]⟩, .success) ∧
    stripe_webhook
        ⟨"evt_5", .invoicePaid ⟨"in_2", some "sub_1", "pi_2", 2900, 0, "usd",
                                none, some 40, none⟩⟩ 77
        ⟨[⟨1, 1, "cus_1", some "sub_1", "price_1", "active", "pro",
           some 100, some 200, false, none⟩],
         [⟨1, some "pi_2", some "in_2", 2900, "usd", "succeeded",
           "Subscription payment", none, some 40⟩],
         [⟨"evt_5", "invoice.paid", true, none, some 45⟩]⟩ =
      (⟨[⟨1, 1, "cus_1", some "sub_1", "price_1", "active", "pro",
          some 100, some 200, false, none⟩],
        [⟨1, some "pi_2", some "in_2", 2900, "usd", "succeeded",
          "Subscription payment", none, some 40⟩],
        [⟨"evt_5", "invoice.paid", true, none, some 45⟩]⟩, .alreadyProcessed) :=
  ⟨by decide,
   C3_webhook_idempotent
     ⟨"evt_5", .invoicePaid ⟨"in_2", some "sub_1", "pi_2", 2900, 0, "usd",
                             none, some 40, none⟩⟩ 45 77
     ⟨[⟨1, 1, "cus_1", some "sub_1", "price_1", "active", "pro",
        some 100, some 200, false, none⟩], [], []⟩
     ⟨[⟨1, 1, "cus_1", some "sub_1", "price_1", "active", "pro",
        some 100, some 200, false, none⟩],
      [⟨1, some "pi_2", some "in_2", 2900, "usd", "succeeded",
        "Subscription payment", none, some 40⟩],
      [⟨"evt_5", "invoice.paid", true, none, some 45⟩]⟩
     (by decide)⟩

/-! ## Claim C4 -/

/-- C4 counterexample: an `invoice.payment_failed` whose payload carries a
present-but-empty line list raises `IndexError` after the handler has already
set the subscription to `past_due`.  The ledger entry is stamped with the
error and left unprocessed — but the half-done transition is NOT rolled back:
the except block of `stripe_webhook` commits it, so the subscription emerges
as `past_due` although the handler failed, contradicting the claim that the
state is unchanged by a failed invocation. -/
theorem C4_failed_handler_counterexample :
    stripe_webhook
        ⟨"evt_9", .invoiceFailed ⟨"in_1", some "sub_1", "pi_1", 0, 2900, "usd",
                                  some [], none, none⟩⟩ 50
        ⟨[⟨1, 1, "cus_1", some "sub_1", "price_1", "active", "pro",
           some 100, some 200, false, none⟩], [], []⟩ =
      (⟨[⟨1, 1, "cus_1", some "sub_1", "price_1", "past_due", "pro",
          some 100, some 200, false, none⟩], [],
        [⟨"evt_9", "invoice.payment_failed", false,
          some "IndexError: list index out of range", none⟩]⟩,
       .failure "IndexError: list index out of range") := by
  decide

/-- C4 amended: when a handler raises mid-transition, the ledger entry for
the event id is stamped with the error and left unprocessed, so a provider
retry can reattempt it; the handler's partial database writes, however, are
committed together with the error stamp rather than rolled back (the
counterexample exhibits a subscription mutated by a failed invocation). -/
theorem C4_failed_handler_amended (e : StripeEvent) (now : Int) (st st1 : DBState)
    (msg : String) (h : stripe_webhook e now st = (st1, .failure msg)) :
    ∃ r1, st1.webhook_events.find? (fun r => r.stripe_event_id == e.id) = some r1 ∧
      r1.processed = false ∧ r1.processing_error = some msg := by
  cases hfind : st.webhook_events.find? (fun r => r.stripe_event_id == e.id) with
  | some r =>
      simp only [stripe_webhook, hfind] at h
      by_cases hproc : r.processed
      · simp [hproc] at h
      · simp only [hproc, if_false, Bool.false_eq_true] at h
        have hstamp := processEvent_failure_stamps e now st st1 msg h
        refine ⟨{ r with processing_error := some msg }, ?_, ?_, rfl⟩
        · rw [hstamp, find?_updateFirst_same
                (fun r : StripeWebhookEvent => r.stripe_event_id == e.id)
                (fun r : StripeWebhookEvent => { r with processing_error := some msg })
                (fun x => rfl), hfind, Option.map_some']
        · simpa using hproc
  | none =>
      simp only [stripe_webhook, hfind] at h
      have hstamp := processEvent_failure_stamps e now _ st1 msg h
      refine ⟨⟨e.id, eventTypeName e.data, false, some msg, none⟩, ?_, rfl, rfl⟩
      rw [hstamp]
      show List.find? _ (updateFirst _ _ (st.webhook_events ++ [_])) = _
      rw [find?_updateFirst_same
            (fun r : StripeWebhookEvent => r.stripe_event_id == e.id)
            (fun r : StripeWebhookEvent => { r with processing_error := some msg })
            (fun x => rfl), List.find?_append, hfind, Option.none_or]
      simp

/-- Witness for the amended C4 at the counterexample's failing input. -/
theorem C4_failed_handler_amended_witness :
    stripe_webhook
        ⟨"evt_9", .invoiceFailed ⟨"in_1", some "sub_1", "pi_1", 0, 2900, "usd",
                                  some [], none, none⟩⟩ 50
        ⟨[⟨1, 1, "cus_1", some "sub_1", "price_1", "active", "pro",
           some 100, some 200, false, none⟩], [], []⟩ =
      (⟨[⟨1, 1, "cus_1", some "sub_1", "price_1", "past_due", "pro",
          some 100, some 200, false, none⟩], [],
        [⟨"evt_9", "invoice.payment_failed", false,
          some "IndexError: list index out of range", none⟩]⟩,
       .failure "IndexError: list index out of range") ∧
    (∃ r1, (DBState.mk
        [⟨1, 1, "cus_1", some "sub_1", "price_1", "past_due", "pro",
          some 100, some 200, false, none⟩] []
        [⟨"evt_9", "invoice.payment_failed", false,
          some "IndexError: list index out of range", none⟩]).webhook_events.find?
          (fun r => r.stripe_event_id == "evt_9") = some r1 ∧
      r1.processed = false ∧
      r1.processing_error = some "IndexError: list index out of range") :=
  ⟨by decide,
   C4_failed_handler_amended
     ⟨"evt_9", .invoiceFailed ⟨"in_1", some "sub_1", "pi_1", 0, 2900, "usd",
                               some [], none, none⟩⟩ 50
     ⟨[⟨1, 1, "cus_1", some "sub_1", "price_1", "active", "pro",
        some 100, some 200, false, none⟩], [], []⟩
     ⟨[⟨1, 1, "cus_1", some "sub_1", "price_1", "past_due", "pro",
        some 100, some 200, false, none⟩], [],
      [⟨"evt_9", "invoice.payment_failed", false,
        some "IndexError: list index out of range", none⟩]⟩
     "IndexError: list index out of range" (by decide)⟩

end Prism
